import Mathlib

/-!
Verification development for the Prefix Web Search GNOME-shell extension
(`src/extension.js` and the variant revision `src/unnamed/part_000`).

The repository's logic is embedded shallowly:

* the fixed URL regular expression
  `/(https?:\/\/)?(www\.)?[-a-zA-Z0-9@:%._\+~#=]{1,256}\.[a-zA-Z0-9()]{1,6}\b([-a-zA-Z0-9()@:%_\+.~#?&\/\/=]*)/`
  is embedded as an executable backtracking matcher with JavaScript
  semantics (leftmost match position, alternatives and greedy quantifier
  counts tried in priority order, ASCII word boundary);
* `encodeURIComponent`, `String.prototype.replace` with a string pattern,
  `Array.prototype.join`, `String.prototype.toLowerCase` (ASCII fragment)
  and the `Map` operations used by the code are embedded as executable
  functions on `String` / association lists;
* the two revisions of the provider logic are embedded in namespaces
  `ExtensionJs` (for `src/extension.js`) and `Part000` (for
  `src/unnamed/part_000`); code whose only effect is logging, icon
  construction or the process spawn is modelled by its pure value.
-/

/-! ## Character classes of the URL regular expression -/

/-- Character class `[-a-zA-Z0-9@:%._\+~#=]` (first bracket expression of the
URL regex in `activateResult`). -/
def charClass1 (c : Char) : Bool :=
  c = '-' || c.isAlphanum || c = '@' || c = ':' || c = '%' || c = '.' ||
  c = '_' || c = '+' || c = '~' || c = '#' || c = '='

/-- Character class `[a-zA-Z0-9()]` (the TLD part of the URL regex). -/
def charClass2 (c : Char) : Bool :=
  c.isAlphanum || c = '(' || c = ')'

/-- Character class `[-a-zA-Z0-9()@:%_\+.~#?&\/\/=]` (trailing part of the
URL regex; the doubled `\/\/` denotes the single character `/`). -/
def charClass3 (c : Char) : Bool :=
  c = '-' || c.isAlphanum || c = '(' || c = ')' || c = '@' || c = ':' ||
  c = '%' || c = '_' || c = '+' || c = '.' || c = '~' || c = '#' ||
  c = '?' || c = '&' || c = '/' || c = '='

/-- JavaScript word character (`\w` in non-unicode mode): ASCII letter,
digit, or underscore.  Used for the `\b` word boundary. -/
def isWordChar (c : Char) : Bool := c.isAlphanum || c = '_'

/-! ## Generic matching helpers -/

/-- Character of `s` at index `i`, if in range. -/
def charAt (s : List Char) (i : Nat) : Option Char := (s.drop i).head?

/-- Length of the maximal run of characters satisfying `p` at the front of
the list. -/
def runLenFrom (p : Char → Bool) : List Char → Nat
  | [] => 0
  | c :: cs => if p c then runLenFrom p cs + 1 else 0

/-- Length of the maximal run of characters satisfying `p` starting at
index `i` of `s`. -/
def runLen (p : Char → Bool) (s : List Char) (i : Nat) : Nat :=
  runLenFrom p (s.drop i)

/-- Does the literal `l` occur in `s` at index `i`? -/
def litAt (s : List Char) (i : Nat) (l : List Char) : Bool :=
  List.isPrefixOf l (s.drop i)

/-- Is the character at index `i` (if any) a word character? -/
def wordAt (s : List Char) (i : Nat) : Bool :=
  ((charAt s i).map isWordChar).getD false

/-- JavaScript `\b`: position `i` lies between a word character and a
non-word character (string boundaries count as non-word). -/
def wordBoundary (s : List Char) (i : Nat) : Bool :=
  match i with
  | 0 => wordAt s 0
  | j + 1 => wordAt s j != wordAt s (j + 1)

/-- Greedy bounded quantifier: try the continuation `k` at `base + j` for
repetition counts `j = hi, hi - 1, ..., lo` in this (greedy, backtracking)
order, returning the first success. -/
def greedy (k : Nat → Option Nat) (base lo : Nat) : Nat → Option Nat
  | 0 => if lo = 0 then k base else none
  | j + 1 =>
    if lo ≤ j + 1 then
      match k (base + (j + 1)) with
      | some r => some r
      | none => greedy k base lo j
    else none

/-! ## The URL regular expression as a backtracking matcher

Components appear innermost-last: `kTail` handles `\b([class3]*)`,
`kClass2` handles `[class2]{1,6}` before it, and so on.  Each component
receives the index where it starts matching and returns the end index of
the whole match on success.  Priority order follows JavaScript: optional
groups are tried present-first, `https?` tries the `s` first, and greedy
quantifiers try the longest count first. -/

/-- Match `\b([-a-zA-Z0-9()@:%_\+.~#?&\/\/=]*)` at index `i`: check the word
boundary, then greedily take the maximal `charClass3` run (nothing follows,
so the maximal count is the first success). -/
def kTail (s : List Char) (i : Nat) : Option Nat :=
  if wordBoundary s i then some (i + runLen charClass3 s i) else none

/-- Match `[a-zA-Z0-9()]{1,6}` (then the rest) at index `i`. -/
def kClass2 (s : List Char) (i : Nat) : Option Nat :=
  greedy (fun j => kTail s j) i 1 (min (runLen charClass2 s i) 6)

/-- Match the literal dot (then the rest) at index `i`. -/
def kDot (s : List Char) (i : Nat) : Option Nat :=
  if charAt s i = some '.' then kClass2 s (i + 1) else none

/-- Match `[-a-zA-Z0-9@:%._\+~#=]{1,256}` (then the rest) at index `i`. -/
def kClass1 (s : List Char) (i : Nat) : Option Nat :=
  greedy (fun j => kDot s j) i 1 (min (runLen charClass1 s i) 256)

/-- Match `(www\.)?` (then the rest) at index `i`: with the group first,
falling back to skipping it. -/
def kWww (s : List Char) (i : Nat) : Option Nat :=
  match (if litAt s i ('w' :: 'w' :: 'w' :: '.' :: []) then kClass1 s (i + 4) else none) with
  | some r => some r
  | none => kClass1 s i

/-- Match `(https?:\/\/)?` (then the rest) at index `i`: `https://` first,
then `http://`, then without the group. -/
def kScheme (s : List Char) (i : Nat) : Option Nat :=
  match (if litAt s i "https://".data then kWww s (i + 8) else none) with
  | some r => some r
  | none =>
    match (if litAt s i "http://".data then kWww s (i + 7) else none) with
    | some r => some r
    | none => kWww s i

/-- Attempt to match the whole URL regex at index `i` of `s`, returning the
end index of the match on success. -/
def matchAt (s : List Char) (i : Nat) : Option Nat := kScheme s i

/-- Scan match start positions `i, i + 1, ...` (with fuel) and return the
first (leftmost) successful match as `(start, end)` indices. -/
def firstMatchAux (s : List Char) (i : Nat) : Nat → Option (Nat × Nat)
  | 0 => none
  | fuel + 1 =>
    match matchAt s i with
    | some e => some (i, e)
    | none => firstMatchAux s (i + 1) fuel

/-- Leftmost match of the URL regex in `s`, as the matched character list
(JavaScript `s.match(re)?.[0]`). -/
def jsMatchL (s : List Char) : Option (List Char) :=
  match firstMatchAux s 0 (s.length + 1) with
  | some (st, en) => some ((s.drop st).take (en - st))
  | none => none

/-- Leftmost match of the URL regex in `s` (JavaScript `s.match(re)?.[0]`). -/
def jsMatch (s : String) : Option String := (jsMatchL s.data).map String.mk

/-- JavaScript `re.test(s)` for the URL regex: some match exists. -/
def regexTest (s : String) : Bool := (jsMatch s).isSome

/-- The direct-URL classification used by both revisions of
`activateResult` and `getInitialResultSet`:
`re.test(s) && s.match(re)?.[0]?.length === s.length`. -/
def isDirectUrl (s : String) : Bool :=
  regexTest s && ((jsMatch s).map String.length == some s.length)

/-! ## JavaScript string primitives used by the code -/

/-- Characters `encodeURIComponent` leaves unescaped:
`A-Z a-z 0-9 - _ . ! ~ * ' ( )` (the apostrophe is `Char.ofNat 39`). -/
def isUnreservedURI (c : Char) : Bool :=
  c.isAlphanum || c = '-' || c = '_' || c = '.' || c = '!' || c = '~' ||
  c = '*' || c = Char.ofNat 39 || c = '(' || c = ')'

/-- UTF-8 bytes of the code point `n`. -/
def utf8Bytes (n : Nat) : List Nat :=
  if n < 128 then [n]
  else if n < 2048 then [192 + n / 64, 128 + n % 64]
  else if n < 65536 then [224 + n / 4096, 128 + (n / 64) % 64, 128 + n % 64]
  else [240 + n / 262144, 128 + (n / 4096) % 64, 128 + (n / 64) % 64, 128 + n % 64]

/-- Uppercase hexadecimal digit for `n < 16`. -/
def hexDigitUpper (n : Nat) : Char :=
  Char.ofNat (if n < 10 then 48 + n else 55 + n)

/-- Percent-encoding of one byte, uppercase hex (as `encodeURIComponent`
produces). -/
def pctEncodeByte (b : Nat) : List Char :=
  '%' :: hexDigitUpper (b / 16) :: hexDigitUpper (b % 16) :: []

/-- Encoding of one character under `encodeURIComponent`: kept when
unreserved, otherwise every UTF-8 byte percent-encoded. -/
def encodeURIComponentChar (c : Char) : List Char :=
  if isUnreservedURI c then [c] else ((utf8Bytes c.toNat).map pctEncodeByte).flatten

/-- JavaScript `encodeURIComponent` (total on Lean `Char`s, which exclude
the lone surrogates on which the JavaScript function throws). -/
def encodeURIComponent (s : String) : String :=
  String.mk ((s.data.map encodeURIComponentChar).flatten)

/-- Body of `replaceFirst` on character lists: rebuild `s` until the first
occurrence of `pat`, which is replaced by `rep`. -/
def replaceFirstAux (pat rep : List Char) : List Char → List Char
  | [] => if List.isPrefixOf pat ([] : List Char) then rep else []
  | c :: rest =>
    if List.isPrefixOf pat (c :: rest) then rep ++ List.drop pat.length (c :: rest)
    else c :: replaceFirstAux pat rep rest

/-- JavaScript `s.replace(pat, rep)` with a string pattern: replace the
first occurrence of `pat` only, `s` unchanged when `pat` does not occur.
(The `$`-substitution patterns of `replace` cannot arise here: the code
only substitutes `encodeURIComponent` output, which never contains `$`.) -/
def replaceFirst (s pat rep : String) : String :=
  String.mk (replaceFirstAux pat.data rep.data s.data)

/-- JavaScript `s.toLowerCase()`, ASCII fragment (the inputs the claims
quantify over are embedded up to this fragment). -/
def jsToLowerCase (s : String) : String := String.mk (s.data.map Char.toLower)

/-- JavaScript `s.toUpperCase()`, ASCII fragment. -/
def jsToUpperCase (s : String) : String := String.mk (s.data.map Char.toUpper)

/-- JavaScript `terms.join(' ')`. -/
def joinSpace (terms : List String) : String := String.intercalate " " terms

/-- JavaScript `terms.join('+')`. -/
def joinPlus (terms : List String) : String := String.intercalate "+" terms

/-- JavaScript truthiness of an optional string: `undefined` and the empty
string are falsy. -/
def optTruthy : Option String → Bool
  | some s => !(s == "")
  | none => false

/-! ## JavaScript `Map` as an association list

`Map.set` updates an existing key in place and appends a new key;
`Map.get` returns the value of the first (unique) matching key. -/

/-- JavaScript `m.set(k, v)`. -/
def mapSet {α : Type} (m : List (String × α)) (k : String) (v : α) : List (String × α) :=
  match m with
  | [] => [(k, v)]
  | (k', v') :: rest => if k' = k then (k, v) :: rest else (k', v') :: mapSet rest k v

/-- JavaScript `m.get(k)` (`none` models `undefined`). -/
def mapGet {α : Type} (m : List (String × α)) (k : String) : Option α :=
  match m with
  | [] => none
  | (k', v') :: rest => if k' = k then some v' else mapGet rest k

/-- JavaScript `m.has(k)`. -/
def mapHas {α : Type} (m : List (String × α)) (k : String) : Bool :=
  (mapGet m k).isSome

/-- The Google search template used as default and fallback throughout the
code. -/
def googleTemplate : String := "https://www.google.com/search?q={query}"

/-- JavaScript `s.startsWith(p)`. -/
def jsStartsWith (s p : String) : Bool := List.isPrefixOf p.data s.data

/-- Final launch logic shared verbatim by both revisions of
`activateResult`: build the `xdg-open` command from the target URL and the
direct-URL flag. -/
def buildCmd (targetUrl : String) (isDirect : Bool) : String :=
  "xdg-open " ++
    (if isDirect then
      (if jsStartsWith targetUrl "http://" || jsStartsWith targetUrl "https://" then targetUrl
        else "https://" ++ targetUrl)
    else "\"" ++ targetUrl ++ "\"")

/-- `filterResults` shared by both revisions: truncate to `maxResults`. -/
def filterResults (results : List String) (maxResults : Nat) : List String :=
  if results.length ≤ maxResults then results else results.take maxResults


/-! ## Revision `src/extension.js` -/

/-- One entry of the configuration array for `src/extension.js`
(`engineKey` embeds the JSON field named after the search-engine shorthand
token; `url` is the URL template). -/
structure ExtensionJs.EngineCfg where
  engineKey : String
  url : String
deriving DecidableEq, Repr

/-- The engine map the `PrefixWebSearchProvider` constructor builds by
iterating `searchEnginesConfig.forEach(engine => map.set(engine.prefix, engine.url))`
(`src/extension.js` lines 22-25). -/
def ExtensionJs.rawMap (cfg : List ExtensionJs.EngineCfg) : List (String × String) :=
  cfg.foldl (fun m e => mapSet m e.engineKey e.url) []

/-- The constructor's final map: a `_default_` entry is synthesized with
the Google template when absent (`src/extension.js` lines 27-30). -/
def ExtensionJs.buildMap (cfg : List ExtensionJs.EngineCfg) : List (String × String) :=
  if mapHas (ExtensionJs.rawMap cfg) "_default_" then ExtensionJs.rawMap cfg
  else mapSet (ExtensionJs.rawMap cfg) "_default_" googleTemplate

/-- The branch condition of `activateResult`
(`src/extension.js` line 75): the lowercased first term is a key of the map
and more than one term was given. -/
def ExtensionJs.hit (m : List (String × String)) (termsToUse : List String) : Bool :=
  (termsToUse.head?.map (fun t => mapHas m (jsToLowerCase t))).getD false &&
    decide (termsToUse.length > 1)

/-- `urlTemplate` selected by `activateResult`
(`src/extension.js` lines 75-81); `none` models the `undefined` that
`map.get('_default_')` yields when the key is missing. -/
def ExtensionJs.pickTemplate (m : List (String × String)) (termsToUse : List String) :
    Option String :=
  if ExtensionJs.hit m termsToUse then
    mapGet m (jsToLowerCase (termsToUse.head?.getD ""))
  else mapGet m "_default_"

/-- `actualSearchTerms` selected by `activateResult`
(`src/extension.js` lines 75-81). -/
def ExtensionJs.pickTerms (m : List (String × String)) (termsToUse : List String) :
    List String :=
  if ExtensionJs.hit m termsToUse then termsToUse.drop 1 else termsToUse

/-- `targetUrl` computed by `activateResult`
(`src/extension.js` lines 56-85); `none` models the `TypeError` thrown on
`undefined.replace` when no `_default_` entry exists. -/
def ExtensionJs.resolveTarget (m : List (String × String)) (termsToUse : List String) :
    Option String :=
  if isDirectUrl (joinSpace termsToUse) then some (joinSpace termsToUse)
  else
    (ExtensionJs.pickTemplate m termsToUse).map
      (fun t => replaceFirst t "{query}"
        (joinPlus ((ExtensionJs.pickTerms m termsToUse).map encodeURIComponent)))

/-- The full `xdg-open` command `activateResult` spawns
(`src/extension.js` lines 56-103). -/
def ExtensionJs.activateCmd (m : List (String × String)) (termsToUse : List String) :
    Option String :=
  (ExtensionJs.resolveTarget m termsToUse).map
    (fun t => buildCmd t (isDirectUrl (joinSpace termsToUse)))

/-- Mutable state of a `PrefixWebSearchProvider` from `src/extension.js`:
the engine map and the `_lastParsedTerms` slot. -/
structure ExtensionJs.State where
  searchEnginesMap : List (String × String)
  lastParsedTerms : List String
deriving DecidableEq, Repr

/-- `getInitialResultSet` (`src/extension.js` lines 181-216): stores the
terms, then classifies them into identifiers. -/
def ExtensionJs.getInitialResultSetS (st : ExtensionJs.State) (terms : List String) :
    ExtensionJs.State × List String :=
  ({ st with lastParsedTerms := terms },
    if terms.length = 0 then []
    else if isDirectUrl (joinSpace terms) then ["direct-url"]
    else if (terms.head?.map (fun t => mapHas st.searchEnginesMap (jsToLowerCase t))).getD false
        && decide (terms.length > 1) then ["custom-search"]
    else if terms.length > 0 then ["custom-search"]
    else [])

/-- `getSubsearchResultSet` (`src/extension.js` lines 218-220): delegates
to `getInitialResultSet`, ignoring the previous results. -/
def ExtensionJs.getSubsearchResultSetS (st : ExtensionJs.State) (_results : List String)
    (terms : List String) : ExtensionJs.State × List String :=
  ExtensionJs.getInitialResultSetS st terms

/-- `activateResult` (`src/extension.js` lines 50-104) as a state
transition: it reads the map, writes no field, and spawns the command
(returned here as the pure value; `resultId` is only logged). -/
def ExtensionJs.activateResultS (st : ExtensionJs.State) (_resultId : String)
    (termsToUse : List String) : ExtensionJs.State × Option String :=
  (st, ExtensionJs.activateCmd st.searchEnginesMap termsToUse)

/-! ## Revision `src/unnamed/part_000` -/

/-- One entry of the configuration array for `src/unnamed/part_000`: the
key token, the URL template, and the optional `empty_query_url`. -/
structure Part000.EngineCfg where
  engineKey : String
  url : String
  empty_query_url : Option String
deriving DecidableEq, Repr

/-- The engine value stored in the map (`src/unnamed/part_000`
lines 23-30). -/
structure Part000.Engine where
  url : String
  empty_query_url : Option String
deriving DecidableEq, Repr

/-- The engine map the constructor builds (`src/unnamed/part_000`
lines 22-30). -/
def Part000.rawMap (cfg : List Part000.EngineCfg) : List (String × Part000.Engine) :=
  cfg.foldl (fun m e => mapSet m e.engineKey ⟨e.url, e.empty_query_url⟩) []

/-- The constructor's final map: a `_default_` engine with the Google
template (and no `empty_query_url`) is synthesized when absent
(`src/unnamed/part_000` lines 32-37). -/
def Part000.buildMap (cfg : List Part000.EngineCfg) : List (String × Part000.Engine) :=
  if mapHas (Part000.rawMap cfg) "_default_" then Part000.rawMap cfg
  else mapSet (Part000.rawMap cfg) "_default_" ⟨googleTemplate, none⟩

/-- The branch condition of `activateResult` in this revision
(`src/unnamed/part_000` line 77): only key membership, with no condition
on the number of terms. -/
def Part000.hit (m : List (String × Part000.Engine)) (termsToUse : List String) : Bool :=
  (termsToUse.head?.map (fun t => mapHas m (jsToLowerCase t))).getD false

/-- `engineConfig` selected by `activateResult`
(`src/unnamed/part_000` lines 77-83). -/
def Part000.pickEngine (m : List (String × Part000.Engine)) (termsToUse : List String) :
    Option Part000.Engine :=
  if Part000.hit m termsToUse then
    mapGet m (jsToLowerCase (termsToUse.head?.getD ""))
  else mapGet m "_default_"

/-- `actualSearchTerms` selected by `activateResult`
(`src/unnamed/part_000` lines 77-83). -/
def Part000.pickTerms (m : List (String × Part000.Engine)) (termsToUse : List String) :
    List String :=
  if Part000.hit m termsToUse then termsToUse.drop 1 else termsToUse

/-- `targetUrl` computed by `activateResult`
(`src/unnamed/part_000` lines 61-92): an empty remaining-term list with a
truthy `empty_query_url` yields that constant, otherwise the template
substitution. -/
def Part000.resolveTarget (m : List (String × Part000.Engine)) (termsToUse : List String) :
    Option String :=
  if isDirectUrl (joinSpace termsToUse) then some (joinSpace termsToUse)
  else
    (Part000.pickEngine m termsToUse).map
      (fun ec =>
        if (Part000.pickTerms m termsToUse).length = 0 && optTruthy ec.empty_query_url then
          ec.empty_query_url.getD ""
        else
          replaceFirst ec.url "{query}"
            (joinPlus ((Part000.pickTerms m termsToUse).map encodeURIComponent)))

/-- The full `xdg-open` command `activateResult` spawns
(`src/unnamed/part_000` lines 55-107). -/
def Part000.activateCmd (m : List (String × Part000.Engine)) (termsToUse : List String) :
    Option String :=
  (Part000.resolveTarget m termsToUse).map
    (fun t => buildCmd t (isDirectUrl (joinSpace termsToUse)))

/-- Mutable state of a provider from `src/unnamed/part_000`. -/
structure Part000.State where
  searchEnginesMap : List (String × Part000.Engine)
  lastParsedTerms : List String
deriving DecidableEq, Repr

/-- `getInitialResultSet` (`src/unnamed/part_000` lines 171-213); the
prefix branch here has no more-than-one-term condition, though both
branches emit the same identifier. -/
def Part000.getInitialResultSetS (st : Part000.State) (terms : List String) :
    Part000.State × List String :=
  ({ st with lastParsedTerms := terms },
    if terms.length = 0 then []
    else if isDirectUrl (joinSpace terms) then ["direct-url"]
    else if (terms.head?.map (fun t => mapHas st.searchEnginesMap (jsToLowerCase t))).getD false
        then ["custom-search"]
    else if terms.length > 0 then ["custom-search"]
    else [])

/-- `getSubsearchResultSet` (`src/unnamed/part_000` lines 215-218). -/
def Part000.getSubsearchResultSetS (st : Part000.State) (_results : List String)
    (terms : List String) : Part000.State × List String :=
  Part000.getInitialResultSetS st terms

/-- `activateResult` (`src/unnamed/part_000` lines 55-107) as a state
transition. -/
def Part000.activateResultS (st : Part000.State) (_resultId : String)
    (termsToUse : List String) : Part000.State × Option String :=
  (st, Part000.activateCmd st.searchEnginesMap termsToUse)

/-! ## Configuration loading (`_loadSearchEnginesConfig`, both revisions)

The file read and `JSON.parse` are host I/O; their combined outcome is the
`Except` argument (`Except.error` models any thrown exception).  The
`catch` branch installs the hardcoded two-entry fallback
(`src/extension.js` lines 240-256, `src/unnamed/part_000` lines 239-256). -/

/-- The hardcoded fallback configuration of `src/extension.js`. -/
def ExtensionJs.fallbackConfig : List ExtensionJs.EngineCfg :=
  [⟨"gg", googleTemplate⟩, ⟨"_default_", googleTemplate⟩]

/-- `_loadSearchEnginesConfig` of `src/extension.js`: the parsed
configuration on success, the fallback on any failure. -/
def ExtensionJs.loadSearchEnginesConfig
    (attempt : Except String (List ExtensionJs.EngineCfg)) : List ExtensionJs.EngineCfg :=
  match attempt with
  | Except.ok cfg => cfg
  | Except.error _ => ExtensionJs.fallbackConfig

/-- The hardcoded fallback configuration of `src/unnamed/part_000` (its
entries carry no `empty_query_url`). -/
def Part000.fallbackConfig : List Part000.EngineCfg :=
  [⟨"gg", googleTemplate, none⟩, ⟨"_default_", googleTemplate, none⟩]

/-- `_loadSearchEnginesConfig` of `src/unnamed/part_000`. -/
def Part000.loadSearchEnginesConfig
    (attempt : Except String (List Part000.EngineCfg)) : List Part000.EngineCfg :=
  match attempt with
  | Except.ok cfg => cfg
  | Except.error _ => Part000.fallbackConfig


/-! ## Helper lemmas -/

/-- `Map.set` followed by `Map.get` at the same key yields the set value. -/
theorem mapGet_mapSet_self {α : Type} (m : List (String × α)) (k : String) (v : α) :
    mapGet (mapSet m k v) k = some v := by
  induction m with
  | nil => simp [mapSet, mapGet]
  | cons p rest ih =>
    obtain ⟨k', v'⟩ := p
    by_cases h : k' = k <;> simp [mapSet, mapGet, h, ih]

/-- `Map.set` followed by `Map.has` at the same key holds. -/
theorem mapHas_mapSet_self {α : Type} (m : List (String × α)) (k : String) (v : α) :
    mapHas (mapSet m k v) k = true := by
  simp [mapHas, mapGet_mapSet_self]

/-- The classification bit is set exactly when the leftmost regex match
spans the whole string. -/
theorem isDirectUrl_iff_full (s : String) :
    isDirectUrl s = true ↔ ∃ m, jsMatch s = some m ∧ m.length = s.length := by
  unfold isDirectUrl regexTest
  cases h : jsMatch s with
  | none => simp [h]
  | some m => simp [h]

/-- On a direct URL, `activateResult` of `src/extension.js` takes the
joined input unchanged as target. -/
theorem resolveTarget_direct_ext (m : List (String × String)) (terms : List String)
    (h : isDirectUrl (joinSpace terms) = true) :
    ExtensionJs.resolveTarget m terms = some (joinSpace terms) := by
  unfold ExtensionJs.resolveTarget
  simp [h]

/-- On a direct URL, `activateResult` of `src/unnamed/part_000` takes the
joined input unchanged as target. -/
theorem resolveTarget_direct_p0 (m : List (String × Part000.Engine)) (terms : List String)
    (h : isDirectUrl (joinSpace terms) = true) :
    Part000.resolveTarget m terms = some (joinSpace terms) := by
  unfold Part000.resolveTarget
  simp [h]

/-! ## Tables used by concrete instances -/

/-- Table with distinct engine and default templates, exposing which entry
resolution picks. -/
def c1Table : List (String × String) :=
  [("gg", "https://a.example/s?q={query}"), ("_default_", "https://b.example/s?q={query}")]

/-- The spec's example table: `gg` and `_default_`, both the Google
template. -/
def c1wTable : List (String × String) :=
  [("gg", googleTemplate), ("_default_", googleTemplate)]

/-- The spec's `bil` example table for the `src/unnamed/part_000`
revision: `bil` has an `empty_query_url`. -/
def bilTable : List (String × Part000.Engine) :=
  [("bil", ⟨"https://search.bilibili.com/all?keyword={query}", some "https://www.bilibili.com"⟩),
   ("_default_", ⟨googleTemplate, none⟩)]

/-! ## Claims -/

/-- C1, counterexample: in `src/extension.js`, for the one-term non-URL
input `["gg"]` whose lowercased first term is a key of the table,
`activateResult` does not select the `gg` entry (which would give the `gg`
template with an empty query) but the `_default_` entry with `["gg"]` as
the query terms, because its branch also requires more than one term. -/
theorem c1_counterexample :
    ExtensionJs.resolveTarget c1Table ["gg"] = some "https://b.example/s?q=gg" ∧
    ExtensionJs.resolveTarget c1Table ["gg"] ≠
      some (replaceFirst "https://a.example/s?q={query}" "{query}"
        (joinPlus (([] : List String).map encodeURIComponent))) := by
  decide

/-- C1, amended: for a non-empty term list that is not classified as a
direct URL, `activateResult` of `src/extension.js` selects the engine
entry keyed by `lowercase(terms[0])` when that key is present AND more
than one term was given (with `terms[1:]` as the query terms), and
otherwise (key absent, or a single term) the `_default_` entry with all
terms as the query; the target is the selected template with the first
`{query}` occurrence replaced by the `+`-joined percent-encoded query
terms. -/
theorem c1_amended (m : List (String × String)) (t0 : String) (rest : List String)
    (hnd : isDirectUrl (joinSpace (t0 :: rest)) = false) :
    (mapHas m (jsToLowerCase t0) = true → rest ≠ [] →
      ExtensionJs.resolveTarget m (t0 :: rest) =
        (mapGet m (jsToLowerCase t0)).map
          (fun t => replaceFirst t "{query}" (joinPlus (rest.map encodeURIComponent))))
    ∧ ((mapHas m (jsToLowerCase t0) = false ∨ rest = []) →
      ExtensionJs.resolveTarget m (t0 :: rest) =
        (mapGet m "_default_").map
          (fun t => replaceFirst t "{query}" (joinPlus ((t0 :: rest).map encodeURIComponent)))) := by
  constructor
  · intro hk hr
    have hpos : 0 < rest.length := List.length_pos.mpr hr
    have hhit : ExtensionJs.hit m (t0 :: rest) = true := by
      simp [ExtensionJs.hit, hk, hpos]
    unfold ExtensionJs.resolveTarget ExtensionJs.pickTemplate ExtensionJs.pickTerms
    simp [hnd, hhit]
  · intro hor
    have hhit : ExtensionJs.hit m (t0 :: rest) = false := by
      rcases hor with hk | hr
      · simp [ExtensionJs.hit, hk]
      · subst hr
        simp [ExtensionJs.hit]
    unfold ExtensionJs.resolveTarget ExtensionJs.pickTemplate ExtensionJs.pickTerms
    simp [hnd, hhit]

/-- C1 witness: the spec's own example, `["gg", "cats"]` with the Google
table, resolves to the Google search for `cats`. -/
theorem c1_amended_witness :
    ExtensionJs.resolveTarget c1wTable ["gg", "cats"] =
      some "https://www.google.com/search?q=cats" := by
  have h := (c1_amended c1wTable "gg" ["cats"] (by decide)).1 (by decide) (by decide)
  exact h.trans (by decide)

/-- C2: for every term list, direct-URL classification holds iff the URL
regex's leftmost match on the space-joined terms spans the entire joined
string; and whenever it holds, both revisions of `activateResult` return
the joined input unchanged as the target URL. -/
theorem c2_direct_url_classification (terms : List String) :
    (isDirectUrl (joinSpace terms) = true ↔
      ∃ m, jsMatch (joinSpace terms) = some m ∧ m.length = (joinSpace terms).length)
    ∧ (isDirectUrl (joinSpace terms) = true →
      (∀ m1 : List (String × String),
        ExtensionJs.resolveTarget m1 terms = some (joinSpace terms))
      ∧ (∀ m2 : List (String × Part000.Engine),
        Part000.resolveTarget m2 terms = some (joinSpace terms))) :=
  ⟨isDirectUrl_iff_full _,
    fun h => ⟨fun m1 => resolveTarget_direct_ext m1 terms h,
              fun m2 => resolveTarget_direct_p0 m2 terms h⟩⟩

/-- C2 witness: `["www.google.com"]` is classified as a direct URL and
resolves to itself. -/
theorem c2_witness :
    isDirectUrl (joinSpace ["www.google.com"]) = true ∧
    ExtensionJs.resolveTarget [] ["www.google.com"] = some (joinSpace ["www.google.com"]) :=
  ⟨by decide, ((c2_direct_url_classification ["www.google.com"]).2 (by decide)).1 []⟩

/-- C3: for input `["bil"]` with `bil` mapped to an entry whose
`empty_query_url` is `"https://www.bilibili.com"`, resolution in
`src/unnamed/part_000` returns that constant exactly, not the template
substitution at an empty query. -/
theorem c3_empty_query_url_constant :
    Part000.resolveTarget bilTable ["bil"] = some "https://www.bilibili.com" ∧
    Part000.resolveTarget bilTable ["bil"] ≠
      some (replaceFirst "https://search.bilibili.com/all?keyword={query}" "{query}" "") := by
  decide

/-- C4, counterexample: in `src/unnamed/part_000`, the one-term non-URL
input `["bil"]` whose term is a registered key does NOT use the
`_default_` entry with `bil` as the query (which would give the Google
search for `bil`): the registered `bil` entry is selected and its
`empty_query_url` returned. -/
theorem c4_counterexample :
    Part000.resolveTarget bilTable ["bil"] ≠
      some (replaceFirst googleTemplate "{query}" (joinPlus (["bil"].map encodeURIComponent))) ∧
    Part000.resolveTarget bilTable ["bil"] = some "https://www.bilibili.com" := by
  decide

/-- C4, amended: in `src/extension.js` (where the prefix branch also
requires more than one term), every one-term list that is not classified
as a direct URL resolves through the `_default_` entry with that single
term as the query, even when the lowercased term is a registered key. -/
theorem c4_amended (m : List (String × String)) (t0 : String)
    (hnd : isDirectUrl (joinSpace [t0]) = false) :
    ExtensionJs.resolveTarget m [t0] =
      (mapGet m "_default_").map
        (fun t => replaceFirst t "{query}" (joinPlus ([t0].map encodeURIComponent))) := by
  have hhit : ExtensionJs.hit m [t0] = false := by
    simp [ExtensionJs.hit]
  unfold ExtensionJs.resolveTarget ExtensionJs.pickTemplate ExtensionJs.pickTerms
  simp [hnd, hhit]

/-- C4 witness: `["gg"]` with the Google table resolves through
`_default_` to the Google search for `gg` even though `gg` is registered. -/
theorem c4_amended_witness :
    ExtensionJs.resolveTarget c1wTable ["gg"] = some "https://www.google.com/search?q=gg" :=
  (c4_amended c1wTable "gg" (by decide)).trans (by decide)

/-- C5, counterexample: the encoded query parameter for
`["hello", "world!"]` is `"hello+world!"`, not `"hello+world%21"`:
`encodeURIComponent` leaves `!` unescaped. -/
theorem c5_counterexample :
    joinPlus ((["hello", "world!"]).map encodeURIComponent) = "hello+world!" ∧
    joinPlus ((["hello", "world!"]).map encodeURIComponent) ≠ "hello+world%21" := by
  decide

/-- C5, amended: for the query terms `["hello", "world!"]` the encoded
query parameter substituted into the URL template is exactly
`"hello+world!"`: each term is percent-encoded (with `!` among the
characters `encodeURIComponent` leaves unescaped) and the encoded terms
are joined with `+`. -/
theorem c5_amended :
    joinPlus ((["hello", "world!"]).map encodeURIComponent) = "hello+world!" ∧
    encodeURIComponent "world!" = "world!" ∧
    isUnreservedURI '!' = true ∧
    replaceFirst googleTemplate "{query}"
        (joinPlus ((["hello", "world!"]).map encodeURIComponent)) =
      "https://www.google.com/search?q=hello+world!" := by
  decide

/-- C6: after provider construction from any configuration list the engine
table has a `_default_` entry (synthesized with the Google template when
the loaded configuration lacks it), in both revisions; and no provider
operation modifies the table: `getInitialResultSet` and
`getSubsearchResultSet` only overwrite `_lastParsedTerms`, and
`activateResult` leaves the state untouched. -/
theorem c6_default_always_present_and_table_immutable :
    (∀ cfg : List ExtensionJs.EngineCfg,
      mapHas (ExtensionJs.buildMap cfg) "_default_" = true)
    ∧ (∀ cfg : List Part000.EngineCfg,
      mapHas (Part000.buildMap cfg) "_default_" = true)
    ∧ (∀ cfg : List ExtensionJs.EngineCfg,
      mapGet (ExtensionJs.buildMap cfg) "_default_" =
        if mapHas (ExtensionJs.rawMap cfg) "_default_" then
          mapGet (ExtensionJs.rawMap cfg) "_default_"
        else some googleTemplate)
    ∧ (∀ (st : ExtensionJs.State) (terms : List String),
      ((ExtensionJs.getInitialResultSetS st terms).1).searchEnginesMap = st.searchEnginesMap)
    ∧ (∀ (st : ExtensionJs.State) (results terms : List String),
      ((ExtensionJs.getSubsearchResultSetS st results terms).1).searchEnginesMap
        = st.searchEnginesMap)
    ∧ (∀ (st : ExtensionJs.State) (rid : String) (terms : List String),
      (ExtensionJs.activateResultS st rid terms).1 = st)
    ∧ (∀ (st : Part000.State) (terms : List String),
      ((Part000.getInitialResultSetS st terms).1).searchEnginesMap = st.searchEnginesMap)
    ∧ (∀ (st : Part000.State) (results terms : List String),
      ((Part000.getSubsearchResultSetS st results terms).1).searchEnginesMap
        = st.searchEnginesMap)
    ∧ (∀ (st : Part000.State) (rid : String) (terms : List String),
      (Part000.activateResultS st rid terms).1 = st) := by
  refine ⟨?_, ?_, ?_, fun _ _ => rfl, fun _ _ _ => rfl, fun _ _ _ => rfl,
    fun _ _ => rfl, fun _ _ _ => rfl, fun _ _ _ => rfl⟩
  · intro cfg
    cases h : mapHas (ExtensionJs.rawMap cfg) "_default_" <;>
      simp [ExtensionJs.buildMap, h, mapHas_mapSet_self]
  · intro cfg
    cases h : mapHas (Part000.rawMap cfg) "_default_" <;>
      simp [Part000.buildMap, h, mapHas_mapSet_self]
  · intro cfg
    cases h : mapHas (ExtensionJs.rawMap cfg) "_default_" <;>
      simp [ExtensionJs.buildMap, h, mapGet_mapSet_self]

/-- C7: for the empty term list, `getInitialResultSet` of either revision
yields the empty identifier list (and only overwrites the stored terms);
the embedded function is total, so no rejection or crash is possible. -/
theorem c7_empty_terms_empty_results :
    (∀ st : ExtensionJs.State,
      ExtensionJs.getInitialResultSetS st [] = ({ st with lastParsedTerms := [] }, []))
    ∧ (∀ st : Part000.State,
      Part000.getInitialResultSetS st [] = ({ st with lastParsedTerms := [] }, [])) :=
  ⟨fun _ => rfl, fun _ => rfl⟩

/-- C8: the `xdg-open` command uses a direct URL as-is when it already
starts with `http://` or `https://`, prepends `https://` to a direct URL
without such a scheme, and wraps a constructed (non-direct) search URL in
double quotes. -/
theorem c8_command_construction (url : String) :
    ((jsStartsWith url "http://" = true ∨ jsStartsWith url "https://" = true) →
      buildCmd url true = "xdg-open " ++ url)
    ∧ (jsStartsWith url "http://" = false → jsStartsWith url "https://" = false →
      buildCmd url true = "xdg-open " ++ ("https://" ++ url))
    ∧ buildCmd url false = "xdg-open " ++ ("\"" ++ url ++ "\"") := by
  refine ⟨?_, ?_, rfl⟩
  · rintro (h | h) <;> simp [buildCmd, h]
  · intro h1 h2
    simp [buildCmd, h1, h2]

/-- C8 witness: a schemed direct URL is used as-is, an unschemed one gets
`https://` prepended. -/
theorem c8_witness :
    buildCmd "http://a.example" true = "xdg-open " ++ "http://a.example" ∧
    buildCmd "a.example" true = "xdg-open " ++ ("https://" ++ "a.example") :=
  ⟨(c8_command_construction "http://a.example").1 (Or.inl (by decide)),
   (c8_command_construction "a.example").2.1 (by decide) (by decide)⟩

/-- C9: when loading or parsing `search_engines.json` fails (any thrown
exception, modelled by `Except.error`), the configuration becomes exactly
the hardcoded two-entry fallback (`gg` and `_default_`, both the Google
search template) in both revisions, and building the provider map from the
fallback succeeds with both entries present. -/
theorem c9_fallback_config (e : String) :
    ExtensionJs.loadSearchEnginesConfig (Except.error e) = ExtensionJs.fallbackConfig
    ∧ Part000.loadSearchEnginesConfig (Except.error e) = Part000.fallbackConfig
    ∧ ExtensionJs.fallbackConfig = [⟨"gg", googleTemplate⟩, ⟨"_default_", googleTemplate⟩]
    ∧ mapGet (ExtensionJs.buildMap ExtensionJs.fallbackConfig) "gg" = some googleTemplate
    ∧ mapGet (ExtensionJs.buildMap ExtensionJs.fallbackConfig) "_default_" = some googleTemplate := by
  refine ⟨rfl, rfl, rfl, ?_, ?_⟩ <;> decide

/-- C10: in both revisions, `getSubsearchResultSet(results, terms)` is
definitionally `getInitialResultSet(terms)`: the previous-results argument
has no effect. -/
theorem c10_subsearch_equals_initial :
    (∀ (st : ExtensionJs.State) (results terms : List String),
      ExtensionJs.getSubsearchResultSetS st results terms
        = ExtensionJs.getInitialResultSetS st terms)
    ∧ (∀ (st : Part000.State) (results terms : List String),
      Part000.getSubsearchResultSetS st results terms
        = Part000.getInitialResultSetS st terms) :=
  ⟨fun _ _ _ => rfl, fun _ _ _ => rfl⟩
